import Mathlib

/-!
Verification of the churn-analysis core of `src/churn_plot.py`.

The computational core is `analyze_churn` (lines 78-89) and the animation
loop (lines 98-118).  Rows reaching `analyze_churn` come from `extract_data`
(lines 42-76), which projects eight named columns and coerces the three date
columns to pandas datetime (lines 72-74).  We model a calendar-date cell as
`Option Int` — a day number, with `none` standing for pandas `NaT` — and the
dataframe as a `List Row`.  The in-place mutation that `analyze_churn`
performs on its argument (lines 79 and 81) is modelled by returning the
updated row list alongside the computed point.
-/

/-- A date-typed dataframe cell: a day number, or `none` for pandas `NaT`. -/
abbrev DateCell := Option Int

/-- One row of the dataframe built by `extract_data` (lines 60-74 of
`churn_plot.py`): the eight projected columns.  `days_to_churn` is the column
added by `analyze_churn` (line 81); the outer `Option` records whether the
column exists yet (`none` on the freshly extracted dataframe), the inner
`DateCell`-like value is the day difference with `none` for `NaN`. -/
structure Row where
  client_id : String
  agreement_billing_start_date : DateCell
  reporting_date_start_of_month : DateCell
  agreement_eff_end_date : DateCell
  customer_churn_flag : String
  channel : String
  product_group : String
  award_agent_team_roll_up : String
  days_to_churn : Option (Option Int) := none
  deriving DecidableEq

/-- The two columns that the script ever passes as `date_col` to
`analyze_churn` (lines 99-100 and 114-115). -/
inductive DateCol where
  | agreement_eff_end_date
  | reporting_date_start_of_month
  deriving DecidableEq

/-- Read the selected end-date column of a row (`dataframe[date_col]`). -/
def getCol (r : Row) (c : DateCol) : DateCell :=
  match c with
  | .agreement_eff_end_date => r.agreement_eff_end_date
  | .reporting_date_start_of_month => r.reporting_date_start_of_month

/-- Overwrite the selected end-date column of a row
(`dataframe[date_col] = ...`, line 79). -/
def setCol (r : Row) (c : DateCol) (v : DateCell) : Row :=
  match c with
  | .agreement_eff_end_date => { r with agreement_eff_end_date := v }
  | .reporting_date_start_of_month => { r with reporting_date_start_of_month := v }

/-- `pd.to_datetime` applied to the selected column (line 79).  Both columns
that can be selected were already coerced to datetime dtype by `extract_data`
(lines 72-74), and `pd.to_datetime` is the identity on a datetime column,
preserving `NaT`; so on every dataframe this script ever passes in, the
coercion is the identity map on cells. -/
def to_datetime (v : DateCell) : DateCell := v

/-- Date subtraction in whole days,
`(dataframe[date_col] - dataframe[...]).dt.days` (line 81): `NaT` in either
operand propagates to `NaN` (`none`). -/
def dateSub (a b : DateCell) : Option Int :=
  match a, b with
  | some x, some y => some (x - y)
  | _, _ => none

/-- The per-row effect of lines 79 and 81 of `analyze_churn`: overwrite the
selected column with its datetime coercion, then set the `days_to_churn`
column to the whole-day difference between the selected column and
`AGREEMENT_BILLING_START_DATE`. -/
def updateRow (c : DateCol) (r : Row) : Row :=
  let r1 := setCol r c (to_datetime (getCol r c))
  { r1 with days_to_churn := some (dateSub (getCol r1 c) r1.agreement_billing_start_date) }

/-- The dataframe after line 81 of `analyze_churn`: every row updated. -/
def computeDaysToChurn (dataframe : List Row) (c : DateCol) : List Row :=
  dataframe.map (updateRow c)

/-- `total_count = len(dataframe)` (line 83). -/
def total_count (dataframe : List Row) : Nat :=
  dataframe.length

/-- The boolean filter `dataframe['days_to_churn'] <= (30 * month)` of
line 87: a pandas comparison against `NaN` is `False`, and so is the
comparison on a row where the column is (hypothetically) absent. -/
def passesThreshold (month : Int) (r : Row) : Bool :=
  match r.days_to_churn with
  | some (some d) => decide (d ≤ 30 * month)
  | _ => false

/-- `filtered_count = len(dataframe[dataframe['days_to_churn'] <= (30 * month)])`
(line 87), evaluated on the already-updated dataframe. -/
def filtered_count (dataframe : List Row) (month : Int) : Nat :=
  (dataframe.filter (passesThreshold month)).length

/-- One `[month, churn_rate]` result of `analyze_churn` (lines 85 and 89).
The rate is the exact quotient `filtered_count / total_count`. -/
structure ChurnPoint where
  month : Int
  rate : ℚ
  deriving DecidableEq

/-- `analyze_churn(dataframe, month, date_col)` (lines 78-89).  The Python
function mutates `dataframe` in place at lines 79 and 81 and then returns
`np.array([[month, rate]])`; we return the point together with the mutated
dataframe.  When `total_count == 0` it returns `[[month, 0]]` (lines 84-85),
the mutation of lines 79-81 having already happened. -/
def analyze_churn (dataframe : List Row) (month : Int) (date_col : DateCol) :
    ChurnPoint × List Row :=
  if total_count (computeDaysToChurn dataframe date_col) = 0 then
    ({ month := month, rate := 0 }, computeDaysToChurn dataframe date_col)
  else
    ({ month := month,
       rate := (filtered_count (computeDaysToChurn dataframe date_col) month : ℚ) /
         (total_count (computeDaysToChurn dataframe date_col) : ℚ) },
     computeDaysToChurn dataframe date_col)

/-- State carried through the animation loop: the shared dataframe (mutated
by every `analyze_churn` call) and the two accumulating series
`df_billing_start` and `df_reporting_start` (lines 102-103, 117-118). -/
structure AnimationState where
  dataframe : List Row
  df_billing_start : List ChurnPoint
  df_reporting_start : List ChurnPoint
  deriving DecidableEq

/-- One iteration of the animation loop (lines 113-118): analyze the
agreement-end-date series, then — on the dataframe just mutated by that
call — the reporting-month series, and append each new point to its
series. -/
def animationStep (st : AnimationState) (month : Int) : AnimationState :=
  { dataframe :=
      (analyze_churn (analyze_churn st.dataframe month .agreement_eff_end_date).2
        month .reporting_date_start_of_month).2,
    df_billing_start :=
      st.df_billing_start ++ [(analyze_churn st.dataframe month .agreement_eff_end_date).1],
    df_reporting_start :=
      st.df_reporting_start ++
        [(analyze_churn (analyze_churn st.dataframe month .agreement_eff_end_date).2
            month .reporting_date_start_of_month).1] }

/-- The whole animation (lines 98-118): month 1 seeds both series
(lines 98-103, the same compute-and-append shape as a loop step starting
from empty series), then `for month in range(2, 13)` (line 113). -/
def run_animation (dataframe : List Row) : AnimationState :=
  ([2, 3, 4, 5, 6, 7, 8, 9, 10, 11, 12] : List Int).foldl animationStep
    (animationStep
      { dataframe := dataframe, df_billing_start := [], df_reporting_start := [] } 1)

/-- Replaying any earlier sequence of `analyze_churn` calls (as the animation
loop does) on a dataframe: each call leaves behind its mutated dataframe. -/
def applyCalls (dataframe : List Row) (calls : List (Int × DateCol)) : List Row :=
  calls.foldl (fun d mc => (analyze_churn d mc.1 mc.2).2) dataframe

-- Basic facts used by several claims.

lemma total_count_compute (dataframe : List Row) (c : DateCol) :
    total_count (computeDaysToChurn dataframe c) = dataframe.length := by
  simp [total_count, computeDaysToChurn]

lemma analyze_month (dataframe : List Row) (month : Int) (c : DateCol) :
    ((analyze_churn dataframe month c).1).month = month := by
  unfold analyze_churn
  split <;> rfl

lemma analyze_snd (dataframe : List Row) (month : Int) (c : DateCol) :
    (analyze_churn dataframe month c).2 = computeDaysToChurn dataframe c := by
  unfold analyze_churn
  split <;> rfl

/-- C1: for every month offset and either end-date column, `analyze_churn` on
an empty dataframe returns the point `(month, 0)` (lines 83-85): the empty
input is handled by the explicit `total_count == 0` early return, not by an
error. -/
theorem analyze_churn_empty (month : Int) (c : DateCol) :
    (analyze_churn [] month c).1 = { month := month, rate := 0 } := by
  rfl

lemma filtered_le_total (dataframe : List Row) (month : Int) :
    filtered_count dataframe month ≤ total_count dataframe :=
  List.length_filter_le _ dataframe

lemma analyze_rate_nonempty (dataframe : List Row) (month : Int) (c : DateCol)
    (h : dataframe ≠ []) :
    ((analyze_churn dataframe month c).1).rate =
      (filtered_count (computeDaysToChurn dataframe c) month : ℚ) /
        (total_count (computeDaysToChurn dataframe c) : ℚ) := by
  unfold analyze_churn
  rw [if_neg]
  rw [total_count_compute]
  simpa using h

/-- C2: on a non-empty dataframe and any month offset `m ≥ 1`, the churn rate
returned at line 89 is `filtered_count / total_count` with
`0 ≤ filtered_count ≤ total_count`, hence lies in `[0, 1]`. -/
theorem analyze_churn_rate_bounds (dataframe : List Row) (c : DateCol) (month : Int)
    (hne : dataframe ≠ []) (_hm : 1 ≤ month) :
    0 ≤ ((analyze_churn dataframe month c).1).rate ∧
      ((analyze_churn dataframe month c).1).rate ≤ 1 := by
  rw [analyze_rate_nonempty dataframe month c hne]
  have htot : 0 < (total_count (computeDaysToChurn dataframe c) : ℚ) := by
    rw [total_count_compute]
    exact_mod_cast List.length_pos.mpr hne
  constructor
  · exact div_nonneg (Nat.cast_nonneg _) (Nat.cast_nonneg _)
  · rw [div_le_one htot]
    exact_mod_cast filtered_le_total (computeDaysToChurn dataframe c) month

/-- Witness for C2 at a concrete one-row dataframe and month 1. -/
theorem analyze_churn_rate_bounds_witness :
    0 ≤ ((analyze_churn
          [{ client_id := "a", agreement_billing_start_date := some 0,
             reporting_date_start_of_month := some 0,
             agreement_eff_end_date := some 14,
             customer_churn_flag := "Y", channel := "x", product_group := "g",
             award_agent_team_roll_up := "t" }] 1 .agreement_eff_end_date).1).rate ∧
      ((analyze_churn
          [{ client_id := "a", agreement_billing_start_date := some 0,
             reporting_date_start_of_month := some 0,
             agreement_eff_end_date := some 14,
             customer_churn_flag := "Y", channel := "x", product_group := "g",
             award_agent_team_roll_up := "t" }] 1 .agreement_eff_end_date).1).rate ≤ 1 :=
  analyze_churn_rate_bounds _ _ 1 (by simp) (by norm_num)

lemma passesThreshold_mono {m1 m2 : Int} (h : m1 ≤ m2) (r : Row)
    (hp : passesThreshold m1 r = true) : passesThreshold m2 r = true := by
  unfold passesThreshold at hp ⊢
  rcases hd : r.days_to_churn with _ | d
  · rw [hd] at hp
    exact absurd hp (by simp)
  · rcases d with _ | v
    · rw [hd] at hp
      exact absurd hp (by simp)
    · rw [hd] at hp
      simp only [decide_eq_true_eq] at hp ⊢
      omega

lemma filtered_count_mono (dataframe : List Row) {m1 m2 : Int} (h : m1 ≤ m2) :
    filtered_count dataframe m1 ≤ filtered_count dataframe m2 :=
  List.Sublist.length_le
    (List.monotone_filter_right dataframe (fun r => passesThreshold_mono h r))

/-- C3: for a fixed dataframe and end-date column, the churn rate is
monotonically non-decreasing in the month offset — the filter of line 87 is
monotone in the threshold `30 * month`, and the denominator is fixed. -/
theorem analyze_churn_monotone (dataframe : List Row) (c : DateCol) {m1 m2 : Int}
    (h : m1 < m2) :
    ((analyze_churn dataframe m1 c).1).rate ≤ ((analyze_churn dataframe m2 c).1).rate := by
  rcases eq_or_ne dataframe [] with he | hne
  · subst he
    simp [analyze_churn_empty]
  · rw [analyze_rate_nonempty dataframe m1 c hne, analyze_rate_nonempty dataframe m2 c hne]
    have htot : 0 < (total_count (computeDaysToChurn dataframe c) : ℚ) := by
      rw [total_count_compute]
      exact_mod_cast List.length_pos.mpr hne
    gcongr
    exact_mod_cast filtered_count_mono (computeDaysToChurn dataframe c) h.le

/-- Witness for C3 at a concrete dataframe and months 1 < 2. -/
theorem analyze_churn_monotone_witness :
    ((analyze_churn
        [{ client_id := "a", agreement_billing_start_date := some 0,
           reporting_date_start_of_month := some 0,
           agreement_eff_end_date := some 45,
           customer_churn_flag := "Y", channel := "x", product_group := "g",
           award_agent_team_roll_up := "t" }] 1 .agreement_eff_end_date).1).rate ≤
      ((analyze_churn
        [{ client_id := "a", agreement_billing_start_date := some 0,
           reporting_date_start_of_month := some 0,
           agreement_eff_end_date := some 45,
           customer_churn_flag := "Y", channel := "x", product_group := "g",
           award_agent_team_roll_up := "t" }] 2 .agreement_eff_end_date).1).rate :=
  analyze_churn_monotone _ .agreement_eff_end_date (by norm_num)

lemma updateRow_days (c : DateCol) (r : Row) :
    (updateRow c r).days_to_churn =
      some (dateSub (getCol r c) r.agreement_billing_start_date) := by
  cases c <;> rfl

lemma mem_compute {dataframe : List Row} {r : Row} (c : DateCol) (hr : r ∈ dataframe) :
    updateRow c r ∈ computeDaysToChurn dataframe c :=
  List.mem_map_of_mem (updateRow c) hr

lemma passes_of_mem_filtered {dataframe : List Row} {r : Row} {month : Int} (c : DateCol)
    (hr : r ∈ dataframe) (hp : passesThreshold month (updateRow c r) = true) :
    0 < filtered_count (computeDaysToChurn dataframe c) month := by
  have hmem : updateRow c r ∈ (computeDaysToChurn dataframe c).filter (passesThreshold month) :=
    List.mem_filter.mpr ⟨mem_compute c hr, hp⟩
  exact List.length_pos.mpr (List.ne_nil_of_mem hmem)

/-- C4: the comparison of line 87 is inclusive: a row whose elapsed days are
exactly `30 * month` passes the filter, so it contributes to
`filtered_count` at that offset. -/
theorem boundary_inclusive (dataframe : List Row) (c : DateCol) (month : Int) (r : Row)
    (hr : r ∈ dataframe)
    (hd : dateSub (getCol r c) r.agreement_billing_start_date = some (30 * month)) :
    passesThreshold month (updateRow c r) = true ∧
      0 < filtered_count (computeDaysToChurn dataframe c) month := by
  have hp : passesThreshold month (updateRow c r) = true := by
    unfold passesThreshold
    rw [updateRow_days, hd]
    simp
  exact ⟨hp, passes_of_mem_filtered c hr hp⟩

/-- Witness for C4: one row with elapsed days exactly 60 at month 2. -/
theorem boundary_inclusive_witness :
    passesThreshold 2 (updateRow .agreement_eff_end_date
      { client_id := "a", agreement_billing_start_date := some 0,
        reporting_date_start_of_month := some 0,
        agreement_eff_end_date := some 60,
        customer_churn_flag := "Y", channel := "x", product_group := "g",
        award_agent_team_roll_up := "t" }) = true ∧
      0 < filtered_count (computeDaysToChurn
        [{ client_id := "a", agreement_billing_start_date := some 0,
           reporting_date_start_of_month := some 0,
           agreement_eff_end_date := some 60,
           customer_churn_flag := "Y", channel := "x", product_group := "g",
           award_agent_team_roll_up := "t" }] .agreement_eff_end_date) 2 :=
  boundary_inclusive _ .agreement_eff_end_date 2 _ (by simp) (by decide)

/-- C5: a row whose selected end-date column is `NaT` gets a `NaN`
`days_to_churn` (line 81), the line-87 comparison on it is false for every
month offset, and the row still counts toward `total_count` (line 83) — it
is never dropped, only excluded from `filtered_count`.  In particular the
matched count is unchanged when the null-dated rows are removed. -/
theorem missing_end_date_in_total_not_matched (dataframe : List Row) (c : DateCol)
    (month : Int) (r : Row) (_hr : r ∈ dataframe) (hnull : getCol r c = none) :
    (updateRow c r).days_to_churn = some none ∧
      passesThreshold month (updateRow c r) = false ∧
      total_count (computeDaysToChurn dataframe c) = dataframe.length ∧
      filtered_count (computeDaysToChurn dataframe c) month =
        filtered_count (computeDaysToChurn
          (dataframe.filter (fun x => (getCol x c).isSome)) c) month := by
  refine ⟨?_, ?_, total_count_compute dataframe c, ?_⟩
  · rw [updateRow_days, hnull]
    rfl
  · unfold passesThreshold
    rw [updateRow_days, hnull]
    rfl
  · unfold filtered_count computeDaysToChurn
    rw [List.filter_map, List.filter_map, List.filter_filter]
    simp only [List.length_map]
    apply congrArg List.length
    apply List.filter_congr
    intro x _
    rcases hx : getCol x c with _ | v
    · have : passesThreshold month (updateRow c x) = false := by
        unfold passesThreshold
        rw [updateRow_days, hx]
        rfl
      simp [Function.comp, this, hx]
    · simp [Function.comp, hx]

/-- Witness for C5: a two-row dataframe whose second row has a missing
agreement end date. -/
theorem missing_end_date_witness :
    (updateRow .agreement_eff_end_date
        { client_id := "b", agreement_billing_start_date := some 0,
          reporting_date_start_of_month := some 0,
          agreement_eff_end_date := none,
          customer_churn_flag := "Y", channel := "x", product_group := "g",
          award_agent_team_roll_up := "t" }).days_to_churn = some none ∧
      passesThreshold 1 (updateRow .agreement_eff_end_date
        { client_id := "b", agreement_billing_start_date := some 0,
          reporting_date_start_of_month := some 0,
          agreement_eff_end_date := none,
          customer_churn_flag := "Y", channel := "x", product_group := "g",
          award_agent_team_roll_up := "t" }) = false ∧
      total_count (computeDaysToChurn
        [{ client_id := "a", agreement_billing_start_date := some 0,
           reporting_date_start_of_month := some 0,
           agreement_eff_end_date := some 3,
           customer_churn_flag := "Y", channel := "x", product_group := "g",
           award_agent_team_roll_up := "t" },
         { client_id := "b", agreement_billing_start_date := some 0,
           reporting_date_start_of_month := some 0,
           agreement_eff_end_date := none,
           customer_churn_flag := "Y", channel := "x", product_group := "g",
           award_agent_team_roll_up := "t" }] .agreement_eff_end_date) =
        ([{ client_id := "a", agreement_billing_start_date := some 0,
            reporting_date_start_of_month := some 0,
            agreement_eff_end_date := some 3,
            customer_churn_flag := "Y", channel := "x", product_group := "g",
            award_agent_team_roll_up := "t" },
          { client_id := "b", agreement_billing_start_date := some 0,
            reporting_date_start_of_month := some 0,
            agreement_eff_end_date := none,
            customer_churn_flag := "Y", channel := "x", product_group := "g",
            award_agent_team_roll_up := "t" }] : List Row).length ∧
      filtered_count (computeDaysToChurn
        [{ client_id := "a", agreement_billing_start_date := some 0,
           reporting_date_start_of_month := some 0,
           agreement_eff_end_date := some 3,
           customer_churn_flag := "Y", channel := "x", product_group := "g",
           award_agent_team_roll_up := "t" },
         { client_id := "b", agreement_billing_start_date := some 0,
           reporting_date_start_of_month := some 0,
           agreement_eff_end_date := none,
           customer_churn_flag := "Y", channel := "x", product_group := "g",
           award_agent_team_roll_up := "t" }] .agreement_eff_end_date) 1 =
        filtered_count (computeDaysToChurn
          (([{ client_id := "a", agreement_billing_start_date := some 0,
               reporting_date_start_of_month := some 0,
               agreement_eff_end_date := some 3,
               customer_churn_flag := "Y", channel := "x", product_group := "g",
               award_agent_team_roll_up := "t" },
             { client_id := "b", agreement_billing_start_date := some 0,
               reporting_date_start_of_month := some 0,
               agreement_eff_end_date := none,
               customer_churn_flag := "Y", channel := "x", product_group := "g",
               award_agent_team_roll_up := "t" }] : List Row).filter
            (fun x => (getCol x .agreement_eff_end_date).isSome))
          .agreement_eff_end_date) 1 :=
  missing_end_date_in_total_not_matched _ .agreement_eff_end_date 1 _
    (by simp) (by decide)

/-- C8: a row whose selected end date precedes billing start (negative
elapsed days) is not filtered out: for every month offset `m ≥ 1` it passes
the inclusive comparison of line 87 (`d < 0 ≤ 30 * m`) and so is counted in
`filtered_count`. -/
theorem negative_days_counted (dataframe : List Row) (c : DateCol) (month : Int)
    (r : Row) (d : Int) (hr : r ∈ dataframe)
    (hd : dateSub (getCol r c) r.agreement_billing_start_date = some d)
    (hneg : d < 0) (hm : 1 ≤ month) :
    passesThreshold month (updateRow c r) = true ∧
      0 < filtered_count (computeDaysToChurn dataframe c) month := by
  have hp : passesThreshold month (updateRow c r) = true := by
    unfold passesThreshold
    rw [updateRow_days, hd]
    simp only [decide_eq_true_eq]
    omega
  exact ⟨hp, passes_of_mem_filtered c hr hp⟩

/-- Witness for C8: a row ending 5 days before billing start, month 1. -/
theorem negative_days_counted_witness :
    passesThreshold 1 (updateRow .agreement_eff_end_date
      { client_id := "a", agreement_billing_start_date := some 100,
        reporting_date_start_of_month := some 0,
        agreement_eff_end_date := some 95,
        customer_churn_flag := "Y", channel := "x", product_group := "g",
        award_agent_team_roll_up := "t" }) = true ∧
      0 < filtered_count (computeDaysToChurn
        [{ client_id := "a", agreement_billing_start_date := some 100,
           reporting_date_start_of_month := some 0,
           agreement_eff_end_date := some 95,
           customer_churn_flag := "Y", channel := "x", product_group := "g",
           award_agent_team_roll_up := "t" }] .agreement_eff_end_date) 1 :=
  negative_days_counted _ .agreement_eff_end_date 1 _ (-5) (by simp)
    (by decide) (by norm_num) (by norm_num)

/-- C6: whenever the dataframe has 4 rows of which exactly 1 passes the
60-day filter, `analyze_churn` at month 2 returns the exact rate
`1 / 4 = 0.25` — the division of line 88 is exact on these counts. -/
theorem scenario_c_quarter (dataframe : List Row) (c : DateCol)
    (h4 : total_count (computeDaysToChurn dataframe c) = 4)
    (h1 : filtered_count (computeDaysToChurn dataframe c) 2 = 1) :
    (analyze_churn dataframe 2 c).1 = { month := 2, rate := 1 / 4 } := by
  have hne : dataframe ≠ [] := by
    rw [total_count_compute] at h4
    intro he
    rw [he] at h4
    exact absurd h4 (by norm_num)
  have hr := analyze_rate_nonempty dataframe 2 c hne
  have hm := analyze_month dataframe 2 c
  rw [h4, h1] at hr
  cases hp : (analyze_churn dataframe 2 c).1 with
  | mk m rate =>
      rw [hp] at hr hm
      simp only at hr hm
      rw [hm, hr]
      norm_num

/-- A concrete 4-row dataframe: all billing starts at day 0, end dates at
days 10, 100, 200 and one missing — exactly one row within 60 days. -/
def scenarioCRows : List Row :=
  [{ client_id := "a", agreement_billing_start_date := some 0,
     reporting_date_start_of_month := some 0, agreement_eff_end_date := some 10,
     customer_churn_flag := "Y", channel := "x", product_group := "g",
     award_agent_team_roll_up := "t" },
   { client_id := "b", agreement_billing_start_date := some 0,
     reporting_date_start_of_month := some 0, agreement_eff_end_date := some 100,
     customer_churn_flag := "Y", channel := "x", product_group := "g",
     award_agent_team_roll_up := "t" },
   { client_id := "c", agreement_billing_start_date := some 0,
     reporting_date_start_of_month := some 0, agreement_eff_end_date := some 200,
     customer_churn_flag := "Y", channel := "x", product_group := "g",
     award_agent_team_roll_up := "t" },
   { client_id := "d", agreement_billing_start_date := some 0,
     reporting_date_start_of_month := some 0, agreement_eff_end_date := none,
     customer_churn_flag := "Y", channel := "x", product_group := "g",
     award_agent_team_roll_up := "t" }]

/-- Witness for C6 on the concrete 4-row dataframe. -/
theorem scenario_c_quarter_witness :
    (analyze_churn scenarioCRows 2 .agreement_eff_end_date).1 =
      { month := 2, rate := 1 / 4 } :=
  scenario_c_quarter scenarioCRows .agreement_eff_end_date (by decide) (by decide)

lemma animationStep_billing_months (st : AnimationState) (month : Int) :
    (animationStep st month).df_billing_start.map ChurnPoint.month =
      st.df_billing_start.map ChurnPoint.month ++ [month] := by
  simp [animationStep, analyze_month]

lemma animationStep_reporting_months (st : AnimationState) (month : Int) :
    (animationStep st month).df_reporting_start.map ChurnPoint.month =
      st.df_reporting_start.map ChurnPoint.month ++ [month] := by
  simp [animationStep, analyze_month]

lemma foldl_animation_months (ms : List Int) :
    ∀ st : AnimationState,
      ((ms.foldl animationStep st).df_billing_start.map ChurnPoint.month =
        st.df_billing_start.map ChurnPoint.month ++ ms) ∧
      ((ms.foldl animationStep st).df_reporting_start.map ChurnPoint.month =
        st.df_reporting_start.map ChurnPoint.month ++ ms) := by
  induction ms with
  | nil => intro st; simp
  | cons m rest ih =>
      intro st
      rw [List.foldl_cons]
      refine ⟨?_, ?_⟩
      · rw [(ih (animationStep st m)).1, animationStep_billing_months]
        simp
      · rw [(ih (animationStep st m)).2, animationStep_reporting_months]
        simp

/-- C7: for every input dataframe, running the animation to completion
yields exactly 12 points in each of the two series, whose month values are
exactly 1..12 in insertion order (the initial month-1 point of lines 98-103
followed by the `range(2, 13)` loop of line 113). -/
theorem run_animation_series (dataframe : List Row) :
    (run_animation dataframe).df_billing_start.map ChurnPoint.month =
        ([1, 2, 3, 4, 5, 6, 7, 8, 9, 10, 11, 12] : List Int) ∧
      (run_animation dataframe).df_reporting_start.map ChurnPoint.month =
        ([1, 2, 3, 4, 5, 6, 7, 8, 9, 10, 11, 12] : List Int) ∧
      (run_animation dataframe).df_billing_start.length = 12 ∧
      (run_animation dataframe).df_reporting_start.length = 12 := by
  unfold run_animation
  have h := foldl_animation_months [2, 3, 4, 5, 6, 7, 8, 9, 10, 11, 12]
    (animationStep
      { dataframe := dataframe, df_billing_start := [], df_reporting_start := [] } 1)
  rw [animationStep_billing_months, animationStep_reporting_months] at h
  refine ⟨?_, ?_, ?_, ?_⟩
  · rw [h.1]; rfl
  · rw [h.2]; rfl
  · have := congrArg List.length h.1
    rw [List.length_map] at this
    rw [this]; rfl
  · have := congrArg List.length h.2
    rw [List.length_map] at this
    rw [this]; rfl

/-- The end-date column that `analyze_churn` was *not* asked to use. -/
def otherCol : DateCol → DateCol
  | .agreement_eff_end_date => .reporting_date_start_of_month
  | .reporting_date_start_of_month => .agreement_eff_end_date

/-- C9: `analyze_churn` is not pure in its dataframe argument: every call
returns (models the in-place mutation of lines 79 and 81 of) the row list
with, per row, the selected end-date column overwritten by its datetime
coercion and the `days_to_churn` column added/overwritten with the
recomputed day difference — while the other end-date column and every other
column of the row are left unchanged. -/
theorem analyze_churn_mutates (dataframe : List Row) (month : Int) (c : DateCol) :
    (analyze_churn dataframe month c).2 = dataframe.map (updateRow c) ∧
      ∀ r : Row,
        getCol (updateRow c r) c = to_datetime (getCol r c) ∧
        (updateRow c r).days_to_churn =
          some (dateSub (to_datetime (getCol r c)) r.agreement_billing_start_date) ∧
        getCol (updateRow c r) (otherCol c) = getCol r (otherCol c) ∧
        (updateRow c r).client_id = r.client_id ∧
        (updateRow c r).agreement_billing_start_date = r.agreement_billing_start_date ∧
        (updateRow c r).customer_churn_flag = r.customer_churn_flag ∧
        (updateRow c r).channel = r.channel ∧
        (updateRow c r).product_group = r.product_group ∧
        (updateRow c r).award_agent_team_roll_up = r.award_agent_team_roll_up := by
  refine ⟨analyze_snd dataframe month c, fun r => ?_⟩
  cases c <;> exact ⟨rfl, rfl, rfl, rfl, rfl, rfl, rfl, rfl, rfl⟩

lemma updateRow_updateRow (c c' : DateCol) (r : Row) :
    updateRow c (updateRow c' r) = updateRow c r := by
  cases c <;> cases c' <;> rfl

lemma computeDays_idem (dataframe : List Row) (c c' : DateCol) :
    computeDaysToChurn (computeDaysToChurn dataframe c') c =
      computeDaysToChurn dataframe c := by
  simp [computeDaysToChurn, List.map_map, Function.comp, updateRow_updateRow]

lemma analyze_on_mutated (dataframe : List Row) (c' : DateCol) (month : Int)
    (c : DateCol) :
    analyze_churn (computeDaysToChurn dataframe c') month c =
      analyze_churn dataframe month c := by
  unfold analyze_churn
  rw [computeDays_idem]

lemma applyCalls_shape (calls : List (Int × DateCol)) :
    ∀ dataframe : List Row,
      applyCalls dataframe calls = dataframe ∨
        ∃ c' : DateCol,
          applyCalls dataframe calls = computeDaysToChurn dataframe c' := by
  induction calls with
  | nil => exact fun _ => Or.inl rfl
  | cons mc rest ih =>
      intro df
      have hstep : applyCalls df (mc :: rest) =
          applyCalls (computeDaysToChurn df mc.2) rest := by
        unfold applyCalls
        rw [List.foldl_cons, analyze_snd]
      rw [hstep]
      rcases ih (computeDaysToChurn df mc.2) with h | ⟨c', h⟩
      · exact Or.inr ⟨mc.2, h⟩
      · exact Or.inr ⟨c', by rw [h, computeDays_idem]⟩

/-- C10: the in-place mutation is result-stable: after any earlier sequence
of `analyze_churn` calls on the same dataframe (any months, either column,
exactly as the animation loop of lines 98-115 performs), a further call
returns the same point as on the fresh dataframe — `days_to_churn` is fully
recomputed from the selected column on every call, and the date columns
themselves are unchanged by the coercion. -/
theorem analyze_churn_result_stable (dataframe : List Row)
    (calls : List (Int × DateCol)) (month : Int) (c : DateCol) :
    (analyze_churn (applyCalls dataframe calls) month c).1 =
      (analyze_churn dataframe month c).1 := by
  rcases applyCalls_shape calls dataframe with h | ⟨c', h⟩
  · rw [h]
  · rw [h, analyze_on_mutated]
